import Mathlib

/-!
# mailsender: a verification development

A shallow embedding of `src/main.go` (a one-shot SMTP mail sender) and the
properties of its loader, validator and transmitter.

Go strings are modelled as `String`; `os.Getenv` reads from an explicit
environment; `log.Fatalf` and `os.Exit` are explicit terminations, after which
no deferred call runs (the documented behaviour of `os.Exit`); the network is
a transport whose every step either succeeds or returns an error, and the
calls made on it are recorded in a trace, together with the closes of the
connection that `net/smtp` performs inside its own calls. The functions of
the Go standard library the program calls (`strconv.Atoi`, `strings.Join`,
the closing behaviour of `net/smtp`) are modelled after the library, with a
64-bit `int`.
-/

namespace Mailsender

/-! ## Data model -/

/-- Config email configuration struct (`type Config struct`). -/
structure Config where
  FromName : String
  From : String
  Password : String
  To : String
  Subject : String
  Body : String
  SMTPHost : String
  SMTPPort : Int
deriving DecidableEq

/-! ## Go standard library pieces used by the program -/

/-- The sentinel errors of `strconv`: `ErrSyntax` and `ErrRange`. -/
inductive StrconvErr where
  | ErrSyntax
  | ErrRange
deriving DecidableEq

/-- The `strconv.NumError` value: failing function, input text, cause. -/
structure NumError where
  Func : String
  Num : String
  Err : StrconvErr
deriving DecidableEq

/-- The `strconv.IntSize` of a 64-bit platform. -/
def IntSize : Nat := 64

/-- The loop of `strconv.ParseUint` for base 10 and bit size 64: `n` is the
accumulator, the digits are consumed left to right; a non-digit is a syntax
error, an accumulator at or above the cutoff or a sum above the maximum is a
range error. -/
def parseUintLoop : List Char → Nat → Except StrconvErr Nat
  | [], n => .ok n
  | c :: rest, n =>
    if '0' ≤ c ∧ c ≤ '9' then
      let d := c.toNat - '0'.toNat
      if n ≥ (2 ^ 64 - 1) / 10 + 1 then .error .ErrRange
      else
        let n1 := n * 10 + d
        if n1 > 2 ^ 64 - 1 then .error .ErrRange
        else parseUintLoop rest n1
    else .error .ErrSyntax

/-- The function `strconv.ParseUint(s, 10, 0)` on the characters of `s`. -/
def ParseUint (s : List Char) : Except StrconvErr Nat :=
  if s = [] then .error .ErrSyntax else parseUintLoop s 0

/-- The function `strconv.ParseInt(s, 10, 0)`: picks off a leading sign,
converts the rest unsigned and checks the range of a 64-bit `int`. -/
def ParseInt (s : List Char) : Except StrconvErr Int :=
  match s with
  | [] => .error .ErrSyntax
  | c :: rest =>
    let neg := decide (c = '-')
    let body := if c = '+' ∨ c = '-' then rest else c :: rest
    match ParseUint body with
    | .error .ErrSyntax => .error .ErrSyntax
    | .error .ErrRange => .error .ErrRange
    | .ok un =>
      let cutoff := 2 ^ (IntSize - 1)
      if !neg ∧ un ≥ cutoff then .error .ErrRange
      else if neg ∧ un > cutoff then .error .ErrRange
      else .ok (if neg then -(un : Int) else (un : Int))

/-- The digit loop of the fast path of `strconv.Atoi`. -/
def atoiFastLoop : List Char → Nat → Option Nat
  | [], n => some n
  | ch :: rest, n =>
    if '0' ≤ ch ∧ ch ≤ '9' then atoiFastLoop rest (n * 10 + (ch.toNat - '0'.toNat))
    else none

/-- The function `strconv.Atoi`: a fast path for inputs shorter than 19
bytes, which fit the `int` type, and `ParseInt(s, 10, 0)` for the others. -/
def Atoi (s : String) : Except NumError Int :=
  let sLen := s.utf8ByteSize
  if 0 < sLen ∧ sLen < 19 then
    match s.toList with
    | [] => .error ⟨"Atoi", s, .ErrSyntax⟩
    | c :: rest =>
      let body := if c = '-' ∨ c = '+' then rest else c :: rest
      if (c = '-' ∨ c = '+') ∧ body.length < 1 then .error ⟨"Atoi", s, .ErrSyntax⟩
      else
        match atoiFastLoop body 0 with
        | none => .error ⟨"Atoi", s, .ErrSyntax⟩
        | some n => .ok (if c = '-' then -(n : Int) else (n : Int))
  else
    match ParseInt s.toList with
    | .error e => .error ⟨"Atoi", s, e⟩
    | .ok i => .ok i

/-- The function `strings.Join`: the elements of `elems` with `sep` between
each two of them. -/
def Join : List String → String → String
  | [], _ => ""
  | [e], _ => e
  | e :: rest, sep => rest.foldl (fun b s => b ++ sep ++ s) e

/-! ## Process model -/

/-- An argument of a `log.Fatalf` call. -/
inductive FmtArg where
  | str (s : String)
  | numError (e : NumError)
  | error (msg : String)
deriving DecidableEq

/-- How the process ends early: `os.Exit(code)` after printing lines to the
standard output, or `log.Fatalf(format, args...)`, which logs and exits with
status 1. Neither runs deferred calls. -/
inductive Termination where
  | exit (stdout : List String) (code : Nat)
  | fatal (format : String) (args : List FmtArg)
deriving DecidableEq

/-- The process environment; a variable is unset (`none`) or has a value. -/
abbrev Env := String → Option String

/-- The function `os.Getenv`: the value of the variable, empty when unset. -/
def Getenv (env : Env) (key : String) : String := (env key).getD ""

/-- The values of the flags `-s`, `-c` and `-h` after `flag.Parse`. -/
structure Flags where
  subject : String
  body : String
  help : Bool
deriving DecidableEq

/-! ## The loader -/

/-- The lines `showHelp` prints. -/
def showHelp : List String :=
  [ "Email Sender - Send emails via SMTP with SSL/TLS",
    "",
    "Usage:",
    "  mailsender -s \"subject\" -c \"content\"",
    "",
    "Required Flags:",
    "  -s string    Email subject",
    "  -c string    Email content/body",
    "  -h           Show this help message",
    "",
    "Required Environment Variables:",
    "  EMAIL_FROM_NAME     Sender email display name",
    "  EMAIL_FROM          Sender email address (e.g., your_email@gmail.com)",
    "  EMAIL_PASSWORD      Email password or app-specific password",
    "  EMAIL_TO            Recipient email address",
    "  EMAIL_SMTP_HOST     SMTP server hostname (e.g., smtp.gmail.com)",
    "  EMAIL_SMTP_PORT     SMTP server port (e.g., 465 for SSL, 587 for TLS)",
    "",
    "Examples:",
    "  # Set environment variables first:",
    "  export EMAIL_FROM_NAME=\"display name\"",
    "  export EMAIL_FROM=\"your_email@gmail.com\"",
    "  export EMAIL_PASSWORD=\"your_app_password\"",
    "  export EMAIL_TO=\"recipient@example.com\"",
    "  export EMAIL_SMTP_HOST=\"smtp.gmail.com\"",
    "  export EMAIL_SMTP_PORT=\"465\"",
    "",
    "  # Then send email:",
    "  mailsender -s \"Test Subject\" -c \"This is a test email\"",
    "",
    "Common SMTP Servers:",
    "  Gmail:      smtp.gmail.com:465 (SSL) or :587 (TLS)",
    "  Outlook:    smtp.office365.com:587",
    "  QQ Mail:    smtp.qq.com:465",
    "  163 Mail:   smtp.163.com:465" ]

/-- The function `getEnvOrFail`: get value from environment variable, fail
if not set. -/
def getEnvOrFail (env : Env) (envVar description : String) : Except Termination String :=
  let value := Getenv env envVar
  if value = "" then
    .error (.fatal "Error: Environment variable %s must be set (%s)"
      [.str envVar, .str description])
  else .ok value

/-- The function `parseFlags`: builds the configuration from the flags and
the environment, or ends the process. -/
def parseFlags (env : Env) (flags : Flags) : Except Termination Config :=
  if flags.help then .error (.exit showHelp 0)
  else
    match getEnvOrFail env "EMAIL_FROM" "Sender email address" with
    | .error t => .error t
    | .ok sender =>
    let fromName0 := Getenv env "EMAIL_FROM_NAME"
    let fromName := if "" = fromName0 then sender else fromName0
    match getEnvOrFail env "EMAIL_PASSWORD" "Email password" with
    | .error t => .error t
    | .ok password =>
    match getEnvOrFail env "EMAIL_TO" "Recipient email address" with
    | .error t => .error t
    | .ok recipient =>
    match getEnvOrFail env "EMAIL_SMTP_HOST" "Mail server host" with
    | .error t => .error t
    | .ok smtpHost =>
    match getEnvOrFail env "EMAIL_SMTP_PORT" "Mail server port (SSL 465, TLS 587)" with
    | .error t => .error t
    | .ok smtpPortStr =>
    match Atoi smtpPortStr with
    | .error err => .error (.fatal "SMTP port format error: %v" [.numError err])
    | .ok smtpPort =>
    if flags.subject = "" then
      .error (.exit ["Error: Email subject parameter -s is required", "Use -h flag for help"] 1)
    else if flags.body = "" then
      .error (.exit ["Error: Email content parameter -c is required", "Use -h flag for help"] 1)
    else
      .ok { From := sender
            FromName := fromName
            Password := password
            To := recipient
            Subject := flags.subject
            Body := flags.body
            SMTPHost := smtpHost
            SMTPPort := smtpPort }

/-! ## The validator -/

/-- The function `validateConfig`: the error message, or `none` for `nil`. -/
def validateConfig (config : Config) : Option String :=
  if config.From = "" then some "sender email cannot be empty"
  else if config.Password = "" then some "email password cannot be empty"
  else if config.To = "" then some "recipient email cannot be empty"
  else if config.Subject = "" then some "email subject cannot be empty"
  else if config.Body = "" then some "email content cannot be empty"
  else none

/-! ## The transmitter -/

/-- The calls `sendEmail` makes that can fail, in the order of the source. -/
inductive Step where
  | dial
  | newClient
  | auth
  | mail
  | rcpt
  | data
  | write
  | closeWriter
  | quit
deriving DecidableEq

/-- A call on the transport with its arguments, as recorded in the trace;
`clientClose` and `connClose` are the two deferred calls, `textClose` is a
close of the connection made by `net/smtp` itself inside one of its calls
(`Text.Close`, which calls `Close` on the `tls.Conn`). -/
inductive Event where
  | tlsDial (network addr serverName : String)
  | newClient (host : String)
  | auth (identity username password host : String)
  | mail (sender : String)
  | rcpt (recipient : String)
  | data
  | write (message : String)
  | closeWriter
  | quit
  | textClose
  | clientClose
  | connClose
deriving DecidableEq

/-- The fallible step an event is a call of; none for the closes. -/
def Event.step : Event → Option Step
  | .tlsDial _ _ _ => some .dial
  | .newClient _ => some .newClient
  | .auth _ _ _ _ => some .auth
  | .mail _ => some .mail
  | .rcpt _ => some .rcpt
  | .data => some .data
  | .write _ => some .write
  | .closeWriter => some .closeWriter
  | .quit => some .quit
  | .textClose => none
  | .clientClose => none
  | .connClose => none

/-- Whether an event closes the connection: `Text.Close` inside `net/smtp`,
the deferred `client.Close` (which is `Text.Close`) and the deferred
`conn.Close`. -/
def Event.releases : Event → Bool
  | .textClose => true
  | .clientClose => true
  | .connClose => true
  | _ => false

/-- A failed call: the error it returns, and whether the library had closed
the connection before returning it. -/
structure Failure where
  err : String
  closed : Bool
deriving DecidableEq

/-- A mock transport: for each step the failure it ends in, `none` for a
`nil` error. -/
abbrev Transport := Step → Option Failure

/-- Whether `net/smtp` closes the connection inside a failing call.
`NewClient` always does (`text.Close()` when the greeting is not 220);
`Auth` does when it aborts the exchange and its `Quit` is acknowledged, and
not when the failure is one of `hello` or of the transport; `Quit` does when
the error is the one of `Text.Close` itself; `Mail`, `Rcpt`, `Data`, the
write and the close of the data writer never do. A failed dial hands no
connection to the caller. -/
def closedByLibrary : Step → Failure → Bool
  | .newClient, _ => true
  | .auth, f => f.closed
  | .quit, f => f.closed
  | _, _ => false

/-- The trace after a call of step `s` that failed with `f`. -/
def afterFailure (trace : List Event) (s : Step) (f : Failure) : List Event :=
  if closedByLibrary s f then trace ++ [Event.textClose] else trace

/-- What a run did: the calls made on the transport, oldest first, and how it
ended (`none`: the function returned). -/
structure Run where
  trace : List Event
  ended : Option Termination
deriving DecidableEq

/-- The call `log.Fatalf(format, err)`: the process exits with status 1 at
once; the deferred calls are not run. -/
def Fatalf (trace : List Event) (_deferred : List Event) (format : String) (err : String) : Run :=
  ⟨trace, some (.fatal format [.error err])⟩

/-- A normal return: the deferred calls run, last deferred first. -/
def returnNormally (trace : List Event) (deferred : List Event) : Run :=
  ⟨trace ++ deferred, none⟩

/-- The header lines `headers` of `sendEmail`. -/
def headers (config : Config) : List String :=
  [ "From: " ++ config.FromName ++ "<" ++ config.From ++ ">",
    "To: " ++ config.To,
    "Subject: " ++ config.Subject,
    "MIME-Version: 1.0",
    "Content-Type: text/plain; charset=UTF-8",
    "" ]

/-- The text `messageStr` of `sendEmail`. -/
def messageStr (config : Config) : String :=
  Join (headers config) "\r\n" ++ config.Body ++ "\r\n"

/-- The function `sendEmail` over a mock transport. `deferred` is the stack
of deferred calls, the last deferred first. A successful `client.Quit` ends
in `Text.Close`, so the connection is closed once before the deferred calls
close it again. -/
def sendEmail (t : Transport) (config : Config) : Run :=
  let tr1 := [Event.tlsDial "tcp" (config.SMTPHost ++ ":" ++ toString config.SMTPPort)
    config.SMTPHost]
  match t .dial with
  | some f => Fatalf (afterFailure tr1 .dial f) [] "Failed to connect to server: %v" f.err
  | none =>
  let deferred1 := [Event.connClose]
  let tr2 := tr1 ++ [Event.newClient config.SMTPHost]
  match t .newClient with
  | some f =>
    Fatalf (afterFailure tr2 .newClient f) deferred1 "Failed to create SMTP client: %v" f.err
  | none =>
  let deferred2 := Event.clientClose :: deferred1
  let tr3 := tr2 ++ [Event.auth "" config.From config.Password config.SMTPHost]
  match t .auth with
  | some f => Fatalf (afterFailure tr3 .auth f) deferred2 "Authentication failed: %v" f.err
  | none =>
  let tr4 := tr3 ++ [Event.mail config.From]
  match t .mail with
  | some f => Fatalf (afterFailure tr4 .mail f) deferred2 "Failed to set sender: %v" f.err
  | none =>
  let tr5 := tr4 ++ [Event.rcpt config.To]
  match t .rcpt with
  | some f => Fatalf (afterFailure tr5 .rcpt f) deferred2 "Failed to set recipient: %v" f.err
  | none =>
  let tr6 := tr5 ++ [Event.data]
  match t .data with
  | some f =>
    Fatalf (afterFailure tr6 .data f) deferred2 "Failed to create data writer: %v" f.err
  | none =>
  let tr7 := tr6 ++ [Event.write (messageStr config)]
  match t .write with
  | some f => Fatalf (afterFailure tr7 .write f) deferred2 "Failed to write message: %v" f.err
  | none =>
  let tr8 := tr7 ++ [Event.closeWriter]
  match t .closeWriter with
  | some f =>
    Fatalf (afterFailure tr8 .closeWriter f) deferred2 "Failed to close writer: %v" f.err
  | none =>
  let tr9 := tr8 ++ [Event.quit]
  match t .quit with
  | some f => Fatalf (afterFailure tr9 .quit f) deferred2 "Failed to quit gracefully: %v" f.err
  | none => returnNormally (tr9 ++ [Event.textClose]) deferred2

/-- The function `main`: load, validate, send. -/
def main (env : Env) (flags : Flags) (t : Transport) : Run :=
  match parseFlags env flags with
  | .error term => ⟨[], some term⟩
  | .ok config =>
    match validateConfig config with
    | some err => ⟨[], some (.fatal "Configuration validation failed: %v" [.error err])⟩
    | none => sendEmail t config

/-- The exit status of the process after a run. -/
def Run.exitStatus (r : Run) : Nat :=
  match r.ended with
  | none => 0
  | some (.exit _ code) => code
  | some (.fatal _ _) => 1

/-! ## Specification-side definitions -/

/-- The required environment variables with their descriptions, in the order
the specification lists them. -/
def requiredEnv : List (String × String) :=
  [ ("EMAIL_FROM", "Sender email address"),
    ("EMAIL_PASSWORD", "Email password"),
    ("EMAIL_TO", "Recipient email address"),
    ("EMAIL_SMTP_HOST", "Mail server host"),
    ("EMAIL_SMTP_PORT", "Mail server port (SSL 465, TLS 587)") ]

/-- A variable is missing when it is unset or set to the empty text. -/
def unsetOrEmpty (env : Env) (key : String) : Bool :=
  match env key with
  | none => true
  | some v => v = ""

/-- The fields the validator requires with the message for each, in the
order From, Password, To, Subject, Body. -/
def requiredFields (c : Config) : List (String × String) :=
  [ (c.From, "sender email cannot be empty"),
    (c.Password, "email password cannot be empty"),
    (c.To, "recipient email cannot be empty"),
    (c.Subject, "email subject cannot be empty"),
    (c.Body, "email content cannot be empty") ]

/-- The fixed sequence of the transmitter's steps. -/
def protocol : List Step :=
  [.dial, .newClient, .auth, .mail, .rcpt, .data, .write, .closeWriter, .quit]

/-- The steps of a sequence up to and including the first one the transport
fails; the whole sequence when none fails. -/
def throughFirstFailure (t : Transport) : List Step → List Step
  | [] => []
  | s :: rest => if (t s).isSome then [s] else s :: throughFirstFailure t rest

/-- The fallible steps a run attempted, oldest first. -/
def Run.attempted (r : Run) : List Step := r.trace.filterMap Event.step

/-- The first step of a sequence that the transport fails, with its failure. -/
def firstFailure (t : Transport) : List Step → Option (Step × Failure)
  | [] => none
  | s :: rest =>
    match t s with
    | some f => some (s, f)
    | none => firstFailure t rest

/-- Whether the connection was closed at some point of the run. -/
def Run.released (r : Run) : Bool := r.trace.any Event.releases

/-- The number a non-empty text of decimal digits denotes by positional
notation; none for other texts. -/
def unsignedValue (ds : List Char) : Option Nat :=
  if ds ≠ [] ∧ ds.all Char.isDigit = true then
    some (Nat.ofDigits 10 (ds.reverse.map (fun ch => ch.toNat - 48)))
  else none

/-- The integer a text denotes in base 10: an optional sign followed by one
or more decimal digits; none for other texts. -/
def decimalValue (s : String) : Option Int :=
  match s.toList with
  | [] => none
  | c :: rest =>
    if c = '-' then (unsignedValue rest).map (fun (n : Nat) => -(n : Int))
    else if c = '+' then (unsignedValue rest).map (fun (n : Nat) => (n : Int))
    else (unsignedValue (c :: rest)).map (fun (n : Nat) => (n : Int))

/-! ## Sample inputs -/

/-- A complete environment without a display name. -/
def sampleEnv : Env := fun k =>
  if k = "EMAIL_FROM" then some "a@x.com"
  else if k = "EMAIL_PASSWORD" then some "secret"
  else if k = "EMAIL_TO" then some "b@y.com"
  else if k = "EMAIL_SMTP_HOST" then some "smtp.x.com"
  else if k = "EMAIL_SMTP_PORT" then some "465"
  else none

/-- The environment `sampleEnv` with the recipient unset. -/
def sampleEnvNoTo : Env := fun k => if k = "EMAIL_TO" then none else sampleEnv k

/-- The environment `sampleEnv` with a port that is not a number. -/
def sampleEnvBadPort : Env := fun k =>
  if k = "EMAIL_SMTP_PORT" then some "46x5" else sampleEnv k

/-- The flags `-s Test -c Hello`. -/
def sampleFlags : Flags := ⟨"Test", "Hello", false⟩

/-- The configuration the loader builds from `sampleEnv` and `sampleFlags`. -/
def sampleConfig : Config :=
  { FromName := "a@x.com", From := "a@x.com", Password := "secret", To := "b@y.com",
    Subject := "Test", Body := "Hello", SMTPHost := "smtp.x.com", SMTPPort := 465 }

/-- A transport whose server rejects the credentials: `Auth` aborts the
exchange, quits and closes the connection before it returns the error. -/
def rejectAuth : Transport := fun s =>
  if s = .auth then some ⟨"535 authentication failed", true⟩ else none

/-- A transport whose server accepts the credentials and rejects the sender
address. -/
def rejectMail : Transport := fun s =>
  if s = .mail then some ⟨"550 sender rejected", false⟩ else none

/-! ## Auxiliary lemmas -/

theorem getenv_eq_empty_iff (env : Env) (key : String) :
    Getenv env key = "" ↔ unsetOrEmpty env key = true := by
  unfold Getenv unsetOrEmpty
  cases env key <;> simp

theorem getEnvOrFail_ok {env : Env} {k d v : String}
    (h : getEnvOrFail env k d = .ok v) : v = Getenv env k ∧ Getenv env k ≠ "" := by
  unfold getEnvOrFail at h
  by_cases hk : Getenv env k = ""
  · simp [hk] at h
  · simp [hk] at h
    exact ⟨h.symm, hk⟩

theorem getEnvOrFail_of_ne {env : Env} {k : String} (d : String)
    (h : Getenv env k ≠ "") : getEnvOrFail env k d = .ok (Getenv env k) := by
  simp [getEnvOrFail, h]

theorem getEnvOrFail_of_eq {env : Env} {k : String} (d : String)
    (h : Getenv env k = "") :
    getEnvOrFail env k d =
      .error (.fatal "Error: Environment variable %s must be set (%s)" [.str k, .str d]) := by
  simp [getEnvOrFail, h]

/-- What a configuration returned by the loader tells about its inputs. -/
theorem parseFlags_ok {env : Env} {flags : Flags} {c : Config}
    (h : parseFlags env flags = .ok c) :
    flags.help = false ∧
    Getenv env "EMAIL_FROM" ≠ "" ∧ Getenv env "EMAIL_PASSWORD" ≠ "" ∧
    Getenv env "EMAIL_TO" ≠ "" ∧ Getenv env "EMAIL_SMTP_HOST" ≠ "" ∧
    Getenv env "EMAIL_SMTP_PORT" ≠ "" ∧
    Atoi (Getenv env "EMAIL_SMTP_PORT") = .ok c.SMTPPort ∧
    flags.subject ≠ "" ∧ flags.body ≠ "" ∧
    c.From = Getenv env "EMAIL_FROM" ∧
    c.FromName = (if "" = Getenv env "EMAIL_FROM_NAME" then Getenv env "EMAIL_FROM"
      else Getenv env "EMAIL_FROM_NAME") ∧
    c.Password = Getenv env "EMAIL_PASSWORD" ∧ c.To = Getenv env "EMAIL_TO" ∧
    c.Subject = flags.subject ∧ c.Body = flags.body ∧
    c.SMTPHost = Getenv env "EMAIL_SMTP_HOST" := by
  unfold parseFlags at h
  by_cases hh : flags.help = true
  · simp [hh] at h
  by_cases h1 : Getenv env "EMAIL_FROM" = ""
  · simp [hh, getEnvOrFail_of_eq _ h1] at h
  by_cases h2 : Getenv env "EMAIL_PASSWORD" = ""
  · simp [hh, getEnvOrFail_of_ne _ h1, getEnvOrFail_of_eq _ h2] at h
  by_cases h3 : Getenv env "EMAIL_TO" = ""
  · simp [hh, getEnvOrFail_of_ne _ h1, getEnvOrFail_of_ne _ h2, getEnvOrFail_of_eq _ h3] at h
  by_cases h4 : Getenv env "EMAIL_SMTP_HOST" = ""
  · simp [hh, getEnvOrFail_of_ne _ h1, getEnvOrFail_of_ne _ h2, getEnvOrFail_of_ne _ h3,
      getEnvOrFail_of_eq _ h4] at h
  by_cases h5 : Getenv env "EMAIL_SMTP_PORT" = ""
  · simp [hh, getEnvOrFail_of_ne _ h1, getEnvOrFail_of_ne _ h2, getEnvOrFail_of_ne _ h3,
      getEnvOrFail_of_ne _ h4, getEnvOrFail_of_eq _ h5] at h
  simp only [hh, getEnvOrFail_of_ne _ h1, getEnvOrFail_of_ne _ h2, getEnvOrFail_of_ne _ h3,
    getEnvOrFail_of_ne _ h4, getEnvOrFail_of_ne _ h5] at h
  cases hA : Atoi (Getenv env "EMAIL_SMTP_PORT") with
  | error e => simp [hA] at h
  | ok port =>
    by_cases hs : flags.subject = ""
    · simp [hA, hs] at h
    by_cases hb : flags.body = ""
    · simp [hA, hs, hb] at h
    simp [hA, hs, hb] at h
    subst h
    simp [hh, h1, h2, h3, h4, h5, hs, hb]

/-! ### Decimal texts -/

theorem digit_isDigit {ch : Char} (h : '0' ≤ ch ∧ ch ≤ '9') : ch.isDigit = true := by
  simp only [Char.isDigit, Bool.and_eq_true, decide_eq_true_eq]
  exact h

theorem atoiFastLoop_value : ∀ (ds : List Char) (n m : Nat), atoiFastLoop ds n = some m →
    ds.all Char.isDigit = true ∧
    m = n * 10 ^ ds.length + Nat.ofDigits 10 (ds.reverse.map (fun ch => ch.toNat - 48))
  | [], n, m, h => by
    simp [atoiFastLoop] at h
    simp [h]
  | ch :: rest, n, m, h => by
    unfold atoiFastLoop at h
    split_ifs at h with hd
    obtain ⟨h1, h2⟩ := atoiFastLoop_value rest _ m h
    refine ⟨by simp [digit_isDigit hd, h1], ?_⟩
    rw [h2, List.reverse_cons, List.map_append, Nat.ofDigits_append]
    simp [pow_succ]
    ring

theorem parseUintLoop_value : ∀ (ds : List Char) (n m : Nat), parseUintLoop ds n = .ok m →
    ds.all Char.isDigit = true ∧
    m = n * 10 ^ ds.length + Nat.ofDigits 10 (ds.reverse.map (fun ch => ch.toNat - 48))
  | [], n, m, h => by
    simp [parseUintLoop] at h
    simp [h]
  | ch :: rest, n, m, h => by
    unfold parseUintLoop at h
    simp only at h
    split_ifs at h with hd hc hr
    obtain ⟨h1, h2⟩ := parseUintLoop_value rest _ m h
    refine ⟨by simp [digit_isDigit hd, h1], ?_⟩
    rw [h2, List.reverse_cons, List.map_append, Nat.ofDigits_append]
    simp [pow_succ]
    ring

theorem unsignedValue_of_all {ds : List Char} (hne : ds ≠ []) (h : ds.all Char.isDigit = true) :
    unsignedValue ds = some (Nat.ofDigits 10 (ds.reverse.map (fun ch => ch.toNat - 48))) := by
  unfold unsignedValue
  rw [if_pos ⟨hne, h⟩]

theorem atoiFastLoop_unsigned {ds : List Char} {m : Nat} (hne : ds ≠ [])
    (h : atoiFastLoop ds 0 = some m) : unsignedValue ds = some m := by
  obtain ⟨h1, h2⟩ := atoiFastLoop_value ds 0 m h
  rw [unsignedValue_of_all hne h1, h2]
  simp

theorem ParseUint_unsigned {ds : List Char} {m : Nat}
    (h : ParseUint ds = .ok m) : unsignedValue ds = some m := by
  unfold ParseUint at h
  split_ifs at h with hne
  obtain ⟨h1, h2⟩ := parseUintLoop_value ds 0 m h
  rw [unsignedValue_of_all hne h1, h2]
  simp


/-- The integer of a signed text from the number of its unsigned part. -/
theorem signed_value {c : Char} {rest : List Char} {n : Nat}
    (hu : unsignedValue (if c = '-' ∨ c = '+' then rest else c :: rest) = some n) :
    (if c = '-' then (unsignedValue rest).map (fun (n : Nat) => -(n : Int))
     else if c = '+' then (unsignedValue rest).map (fun (n : Nat) => (n : Int))
     else (unsignedValue (c :: rest)).map (fun (n : Nat) => (n : Int))) =
      some (if c = '-' then -(n : Int) else (n : Int)) := by
  by_cases hs : c = '-' ∨ c = '+'
  · rw [if_pos hs] at hu
    rw [hu]
    rcases hs with rfl | rfl <;> simp
  · rw [if_neg hs] at hu
    rw [hu]
    have hm : c ≠ '-' := fun h => hs (Or.inl h)
    have hp : c ≠ '+' := fun h => hs (Or.inr h)
    simp [hm, hp]

theorem ParseInt_cons {c : Char} {rest : List Char} {v : Int}
    (h : ParseInt (c :: rest) = .ok v) :
    ∃ un, ParseUint (if c = '+' ∨ c = '-' then rest else c :: rest) = .ok un ∧
      v = if c = '-' then -(un : Int) else (un : Int) := by
  unfold ParseInt at h
  dsimp only at h
  cases hu : ParseUint (if c = '+' ∨ c = '-' then rest else c :: rest) with
  | error e =>
    rw [hu] at h
    cases e <;> cases h
  | ok un =>
    rw [hu] at h
    dsimp only at h
    refine ⟨un, rfl, ?_⟩
    by_cases h1 : (!decide (c = '-')) = true ∧ un ≥ 2 ^ (IntSize - 1)
    · rw [if_pos h1] at h
      cases h
    · rw [if_neg h1] at h
      by_cases h2 : decide (c = '-') = true ∧ un > 2 ^ (IntSize - 1)
      · rw [if_pos h2] at h
        cases h
      · rw [if_neg h2] at h
        injection h with h
        rw [← h]
        by_cases hm : c = '-' <;> simp [hm]

/-- An accepted input of `Atoi` denotes the returned integer. -/
theorem Atoi_value {s : String} {v : Int} (h : Atoi s = .ok v) : decimalValue s = some v := by
  unfold Atoi at h
  unfold decimalValue
  generalize s.toList = l at h
  dsimp only at h
  by_cases hlen : 0 < s.utf8ByteSize ∧ s.utf8ByteSize < 19
  · rw [if_pos hlen] at h
    cases l with
    | nil => cases h
    | cons c rest =>
      dsimp only at h ⊢
      by_cases hb : (c = '-' ∨ c = '+') ∧
          (if c = '-' ∨ c = '+' then rest else c :: rest).length < 1
      · rw [if_pos hb] at h
        cases h
      · rw [if_neg hb] at h
        cases hf : atoiFastLoop (if c = '-' ∨ c = '+' then rest else c :: rest) 0 with
        | none =>
          rw [hf] at h
          cases h
        | some n =>
          rw [hf] at h
          injection h with h
          have hne : (if c = '-' ∨ c = '+' then rest else c :: rest) ≠ [] := by
            intro h0
            by_cases hs : c = '-' ∨ c = '+'
            · rw [h0] at hb
              exact hb ⟨hs, by simp⟩
            · rw [if_neg hs] at h0
              cases h0
          rw [signed_value (atoiFastLoop_unsigned hne hf), h]
  · rw [if_neg hlen] at h
    cases hP : ParseInt l with
    | error e =>
      rw [hP] at h
      cases h
    | ok i =>
      rw [hP] at h
      injection h with h
      subst h
      cases l with
      | nil => cases hP
      | cons c rest =>
        obtain ⟨un, hu, hv⟩ := ParseInt_cons hP
        dsimp only
        have e : (if c = '+' ∨ c = '-' then rest else c :: rest) =
            (if c = '-' ∨ c = '+' then rest else c :: rest) := by
          by_cases h1 : c = '-' <;> by_cases h2 : c = '+' <;> simp [h1, h2]
        rw [e] at hu
        rw [signed_value (ParseUint_unsigned hu), hv]

/-! ### Traces -/

/-- The events after a failed call: those before it and, when the library
closed the connection, that close. -/
theorem mem_afterFailure (e : Event) (trace : List Event) (s : Step) (f : Failure) :
    e ∈ afterFailure trace s f ↔
      e ∈ trace ∨ (closedByLibrary s f = true ∧ e = Event.textClose) := by
  unfold afterFailure
  split_ifs with h <;> simp [h]

/-- A close by the library is not one of the fallible steps. -/
theorem filterMap_step_afterFailure (trace : List Event) (s : Step) (f : Failure) :
    (afterFailure trace s f).filterMap Event.step = trace.filterMap Event.step := by
  unfold afterFailure
  split_ifs <;> simp [Event.step]

/-- Every write recorded in a run of `sendEmail` carries `messageStr`. -/
theorem write_mem_trace {t : Transport} {c : Config} {m : String}
    (hm : Event.write m ∈ (sendEmail t c).trace) : m = messageStr c := by
  unfold sendEmail at hm
  repeat' split at hm
  all_goals simp [Fatalf, returnNormally, mem_afterFailure] at hm
  all_goals exact hm

/-! ## The message -/

/-- C2: the message `sendEmail` builds is the five header lines From (display
name and address juxtaposed), To, Subject, MIME-Version, Content-Type in this
order, each terminated by CR LF, and it ends with the body, unchanged,
followed by CR LF; this is the message written to the data stream whenever
the write step is reached. -/
theorem messageStr_layout (c : Config) :
    (∃ rest, messageStr c =
      ("From: " ++ c.FromName ++ "<" ++ c.From ++ ">") ++ "\r\n" ++
      ("To: " ++ c.To) ++ "\r\n" ++
      ("Subject: " ++ c.Subject) ++ "\r\n" ++
      "MIME-Version: 1.0" ++ "\r\n" ++
      "Content-Type: text/plain; charset=UTF-8" ++ "\r\n" ++ rest) ∧
    (∃ front, messageStr c = front ++ (c.Body ++ "\r\n")) ∧
    (∀ t m, Event.write m ∈ (sendEmail t c).trace → m = messageStr c) ∧
    (∀ t, t .dial = none → t .newClient = none → t .auth = none → t .mail = none →
      t .rcpt = none → t .data = none → Event.write (messageStr c) ∈ (sendEmail t c).trace) := by
  have hflat : messageStr c =
      ("From: " ++ c.FromName ++ "<" ++ c.From ++ ">") ++ "\r\n" ++
      ("To: " ++ c.To) ++ "\r\n" ++
      ("Subject: " ++ c.Subject) ++ "\r\n" ++
      "MIME-Version: 1.0" ++ "\r\n" ++
      "Content-Type: text/plain; charset=UTF-8" ++ "\r\n" ++ "" ++ c.Body ++ "\r\n" := rfl
  refine ⟨⟨c.Body ++ "\r\n", ?_⟩, ⟨Join (headers c) "\r\n", ?_⟩, ?_, ?_⟩
  · rw [hflat, String.append_empty, String.append_assoc]
  · unfold messageStr
    rw [String.append_assoc]
  · intro t m hm
    exact write_mem_trace hm
  · intro t h1 h2 h3 h4 h5 h6
    unfold sendEmail
    simp only [h1, h2, h3, h4, h5, h6]
    cases h7 : t .write with
    | some e => simp [Fatalf, mem_afterFailure]
    | none =>
      cases h8 : t .closeWriter with
      | some e => simp [Fatalf, mem_afterFailure]
      | none =>
        cases h9 : t .quit with
        | some e => simp [Fatalf, mem_afterFailure]
        | none => simp [returnNormally]

/-! ## The validator -/

/-- C3: `validateConfig` returns an error exactly when one of From, Password,
To, Subject, Body is empty, and its result does not depend on FromName,
SMTPHost or SMTPPort. -/
theorem validateConfig_error_iff (c : Config) :
    ((validateConfig c).isSome = true ↔
      (c.From = "" ∨ c.Password = "" ∨ c.To = "" ∨ c.Subject = "" ∨ c.Body = "")) ∧
    (∀ (name host : String) (port : Int),
      validateConfig { c with FromName := name, SMTPHost := host, SMTPPort := port } =
        validateConfig c) := by
  constructor
  · unfold validateConfig
    by_cases h1 : c.From = "" <;> by_cases h2 : c.Password = "" <;>
      by_cases h3 : c.To = "" <;> by_cases h4 : c.Subject = "" <;>
      by_cases h5 : c.Body = "" <;> simp [h1, h2, h3, h4, h5]
  · intro name host port
    rfl

/-- C4: when `validateConfig` rejects, its message is the one of the earliest
empty field in the order From, Password, To, Subject, Body, whatever the
later fields hold. -/
theorem validateConfig_first_empty (c : Config) :
    validateConfig c =
      ((requiredFields c).find? (fun p => decide (p.1 = ""))).map (fun p => p.2) ∧
    (c.From = "" → validateConfig c = some "sender email cannot be empty") ∧
    (c.From ≠ "" → c.Password = "" →
      validateConfig c = some "email password cannot be empty") ∧
    (c.From ≠ "" → c.Password ≠ "" → c.To = "" →
      validateConfig c = some "recipient email cannot be empty") ∧
    (c.From ≠ "" → c.Password ≠ "" → c.To ≠ "" → c.Subject = "" →
      validateConfig c = some "email subject cannot be empty") ∧
    (c.From ≠ "" → c.Password ≠ "" → c.To ≠ "" → c.Subject ≠ "" → c.Body = "" →
      validateConfig c = some "email content cannot be empty") := by
  unfold validateConfig requiredFields
  by_cases h1 : c.From = "" <;> by_cases h2 : c.Password = "" <;>
    by_cases h3 : c.To = "" <;> by_cases h4 : c.Subject = "" <;>
    by_cases h5 : c.Body = "" <;> simp [List.find?, h1, h2, h3, h4, h5]

/-! ## The loader -/

/-- C5: without the help flag, when one of the required variables is unset or
empty, `parseFlags` ends with the fatal error naming the first missing one in
the order EMAIL_FROM, EMAIL_PASSWORD, EMAIL_TO, EMAIL_SMTP_HOST,
EMAIL_SMTP_PORT, it returns no configuration, and `main` ends with that error
without a single call on the transport. -/
theorem parseFlags_missing_env (env : Env) (flags : Flags)
    (hh : flags.help = false)
    (hmiss : ∃ p ∈ requiredEnv, unsetOrEmpty env p.1 = true) :
    ∃ p, requiredEnv.find? (fun p => unsetOrEmpty env p.1) = some p ∧
      parseFlags env flags =
        .error (.fatal "Error: Environment variable %s must be set (%s)"
          [.str p.1, .str p.2]) ∧
      (∀ c, parseFlags env flags ≠ .ok c) ∧
      ∀ t, main env flags t =
        ⟨[], some (.fatal "Error: Environment variable %s must be set (%s)"
          [.str p.1, .str p.2])⟩ := by
  have key : ∃ p, requiredEnv.find? (fun p => unsetOrEmpty env p.1) = some p ∧
      parseFlags env flags =
        .error (.fatal "Error: Environment variable %s must be set (%s)"
          [.str p.1, .str p.2]) := by
    obtain ⟨q, hq, hqm⟩ := hmiss
    unfold parseFlags
    by_cases u1 : unsetOrEmpty env "EMAIL_FROM" = true
    · have h1 := (getenv_eq_empty_iff env _).2 u1
      exact ⟨("EMAIL_FROM", "Sender email address"),
        by simp [requiredEnv, List.find?, u1], by simp [hh, getEnvOrFail_of_eq _ h1]⟩
    have h1 := mt (getenv_eq_empty_iff env _).1 u1
    by_cases u2 : unsetOrEmpty env "EMAIL_PASSWORD" = true
    · have h2 := (getenv_eq_empty_iff env _).2 u2
      exact ⟨("EMAIL_PASSWORD", "Email password"),
        by simp [requiredEnv, List.find?, u1, u2],
        by simp [hh, getEnvOrFail_of_ne _ h1, getEnvOrFail_of_eq _ h2]⟩
    have h2 := mt (getenv_eq_empty_iff env _).1 u2
    by_cases u3 : unsetOrEmpty env "EMAIL_TO" = true
    · have h3 := (getenv_eq_empty_iff env _).2 u3
      exact ⟨("EMAIL_TO", "Recipient email address"),
        by simp [requiredEnv, List.find?, u1, u2, u3],
        by simp [hh, getEnvOrFail_of_ne _ h1, getEnvOrFail_of_ne _ h2,
          getEnvOrFail_of_eq _ h3]⟩
    have h3 := mt (getenv_eq_empty_iff env _).1 u3
    by_cases u4 : unsetOrEmpty env "EMAIL_SMTP_HOST" = true
    · have h4 := (getenv_eq_empty_iff env _).2 u4
      exact ⟨("EMAIL_SMTP_HOST", "Mail server host"),
        by simp [requiredEnv, List.find?, u1, u2, u3, u4],
        by simp [hh, getEnvOrFail_of_ne _ h1, getEnvOrFail_of_ne _ h2,
          getEnvOrFail_of_ne _ h3, getEnvOrFail_of_eq _ h4]⟩
    have h4 := mt (getenv_eq_empty_iff env _).1 u4
    by_cases u5 : unsetOrEmpty env "EMAIL_SMTP_PORT" = true
    · have h5 := (getenv_eq_empty_iff env _).2 u5
      exact ⟨("EMAIL_SMTP_PORT", "Mail server port (SSL 465, TLS 587)"),
        by simp [requiredEnv, List.find?, u1, u2, u3, u4, u5],
        by simp [hh, getEnvOrFail_of_ne _ h1, getEnvOrFail_of_ne _ h2,
          getEnvOrFail_of_ne _ h3, getEnvOrFail_of_ne _ h4, getEnvOrFail_of_eq _ h5]⟩
    exfalso
    simp only [requiredEnv, List.mem_cons, List.mem_singleton, List.not_mem_nil,
      or_false] at hq
    rcases hq with rfl | rfl | rfl | rfl | rfl
    · exact u1 hqm
    · exact u2 hqm
    · exact u3 hqm
    · exact u4 hqm
    · exact u5 hqm
  obtain ⟨p, hp, hpf⟩ := key
  refine ⟨p, hp, hpf, ?_, ?_⟩
  · intro c hc
    rw [hpf] at hc
    cases hc
  · intro t
    simp [main, hpf]

/-- C5 at a concrete input: with EMAIL_TO unset the fatal error names
EMAIL_TO. -/
theorem parseFlags_missing_env_witness :
    ∃ p, requiredEnv.find? (fun p => unsetOrEmpty sampleEnvNoTo p.1) = some p ∧
      parseFlags sampleEnvNoTo sampleFlags =
        .error (.fatal "Error: Environment variable %s must be set (%s)"
          [.str p.1, .str p.2]) ∧
      (∀ c, parseFlags sampleEnvNoTo sampleFlags ≠ .ok c) ∧
      ∀ t, main sampleEnvNoTo sampleFlags t =
        ⟨[], some (.fatal "Error: Environment variable %s must be set (%s)"
          [.str p.1, .str p.2])⟩ :=
  parseFlags_missing_env sampleEnvNoTo sampleFlags rfl
    ⟨("EMAIL_TO", "Recipient email address"), by simp [requiredEnv], rfl⟩

/-- C6: in a configuration returned by `parseFlags`, From is the value of
EMAIL_FROM; FromName equals From when EMAIL_FROM_NAME is unset or empty, and
equals the value of EMAIL_FROM_NAME when that is set and not empty. -/
theorem parseFlags_fromName (env : Env) (flags : Flags) (c : Config)
    (h : parseFlags env flags = .ok c) :
    env "EMAIL_FROM" = some c.From ∧
    (unsetOrEmpty env "EMAIL_FROM_NAME" = true → c.FromName = c.From) ∧
    (∀ v, env "EMAIL_FROM_NAME" = some v → v ≠ "" → c.FromName = v) := by
  obtain ⟨-, h1, -, -, -, -, -, -, -, hF, hN, -⟩ := parseFlags_ok h
  refine ⟨?_, ?_, ?_⟩
  · rw [hF]
    unfold Getenv at h1 ⊢
    cases hv : env "EMAIL_FROM" with
    | none => simp [hv] at h1
    | some v => simp
  · intro hu
    rw [← getenv_eq_empty_iff] at hu
    rw [hN, hF]
    simp [hu]
  · intro v hv hne
    rw [hN]
    have : Getenv env "EMAIL_FROM_NAME" = v := by simp [Getenv, hv]
    rw [this]
    simp [Ne.symm hne]

/-- C6 at a concrete input: without EMAIL_FROM_NAME the display name is the
sender address. -/
theorem parseFlags_fromName_witness :
    sampleEnv "EMAIL_FROM" = some sampleConfig.From ∧
    (unsetOrEmpty sampleEnv "EMAIL_FROM_NAME" = true →
      sampleConfig.FromName = sampleConfig.From) ∧
    (∀ v, sampleEnv "EMAIL_FROM_NAME" = some v → v ≠ "" → sampleConfig.FromName = v) :=
  parseFlags_fromName sampleEnv sampleFlags sampleConfig rfl

/-- C9: with the five required variables non-empty and no help flag, a port
text that `strconv.Atoi` rejects, as it does every text that is not a
base-10 integer, makes `parseFlags` end with the fatal error "SMTP port
format error: ..." carrying the conversion error, no configuration is
returned and `main` makes no call on the transport; and the SMTPPort of a
returned configuration is the integer the port text denotes. -/
theorem parseFlags_port (env : Env) (flags : Flags)
    (hh : flags.help = false)
    (hreq : ∀ p ∈ requiredEnv, unsetOrEmpty env p.1 = false) :
    (∀ e, Atoi (Getenv env "EMAIL_SMTP_PORT") = .error e →
      parseFlags env flags = .error (.fatal "SMTP port format error: %v" [.numError e]) ∧
      (∀ c, parseFlags env flags ≠ .ok c) ∧
      ∀ t, main env flags t =
        ⟨[], some (.fatal "SMTP port format error: %v" [.numError e])⟩) ∧
    (decimalValue (Getenv env "EMAIL_SMTP_PORT") = none →
      ∃ e, Atoi (Getenv env "EMAIL_SMTP_PORT") = .error e ∧
        parseFlags env flags = .error (.fatal "SMTP port format error: %v" [.numError e])) ∧
    (∀ c, parseFlags env flags = .ok c →
      decimalValue (Getenv env "EMAIL_SMTP_PORT") = some c.SMTPPort) := by
  have ne : ∀ p ∈ requiredEnv, Getenv env p.1 ≠ "" := by
    intro p hp h0
    have := (getenv_eq_empty_iff env p.1).1 h0
    rw [hreq p hp] at this
    cases this
  have h1 : Getenv env "EMAIL_FROM" ≠ "" :=
    ne ("EMAIL_FROM", "Sender email address") (by simp [requiredEnv])
  have h2 : Getenv env "EMAIL_PASSWORD" ≠ "" :=
    ne ("EMAIL_PASSWORD", "Email password") (by simp [requiredEnv])
  have h3 : Getenv env "EMAIL_TO" ≠ "" :=
    ne ("EMAIL_TO", "Recipient email address") (by simp [requiredEnv])
  have h4 : Getenv env "EMAIL_SMTP_HOST" ≠ "" :=
    ne ("EMAIL_SMTP_HOST", "Mail server host") (by simp [requiredEnv])
  have h5 : Getenv env "EMAIL_SMTP_PORT" ≠ "" :=
    ne ("EMAIL_SMTP_PORT", "Mail server port (SSL 465, TLS 587)") (by simp [requiredEnv])
  have hfatal : ∀ e, Atoi (Getenv env "EMAIL_SMTP_PORT") = .error e →
      parseFlags env flags =
        .error (.fatal "SMTP port format error: %v" [.numError e]) := by
    intro e he
    unfold parseFlags
    simp only [hh, getEnvOrFail_of_ne _ h1, getEnvOrFail_of_ne _ h2,
      getEnvOrFail_of_ne _ h3, getEnvOrFail_of_ne _ h4, getEnvOrFail_of_ne _ h5, he]
    rfl
  refine ⟨?_, ?_, ?_⟩
  · intro e he
    have hpf := hfatal e he
    refine ⟨hpf, ?_, ?_⟩
    · intro c hc
      rw [hpf] at hc
      cases hc
    · intro t
      simp [main, hpf]
  · intro hnone
    cases hA : Atoi (Getenv env "EMAIL_SMTP_PORT") with
    | error e => exact ⟨e, rfl, hfatal e hA⟩
    | ok v =>
      rw [Atoi_value hA] at hnone
      cases hnone
  · intro c hc
    obtain ⟨-, -, -, -, -, -, hA, -⟩ := parseFlags_ok hc
    exact Atoi_value hA

/-- C9 at a concrete input: the port text "46x5" ends the loader with the
format error. -/
theorem parseFlags_port_witness :
    (∀ e, Atoi (Getenv sampleEnvBadPort "EMAIL_SMTP_PORT") = .error e →
      parseFlags sampleEnvBadPort sampleFlags =
        .error (.fatal "SMTP port format error: %v" [.numError e]) ∧
      (∀ c, parseFlags sampleEnvBadPort sampleFlags ≠ .ok c) ∧
      ∀ t, main sampleEnvBadPort sampleFlags t =
        ⟨[], some (.fatal "SMTP port format error: %v" [.numError e])⟩) ∧
    (decimalValue (Getenv sampleEnvBadPort "EMAIL_SMTP_PORT") = none →
      ∃ e, Atoi (Getenv sampleEnvBadPort "EMAIL_SMTP_PORT") = .error e ∧
        parseFlags sampleEnvBadPort sampleFlags =
          .error (.fatal "SMTP port format error: %v" [.numError e])) ∧
    (∀ c, parseFlags sampleEnvBadPort sampleFlags = .ok c →
      decimalValue (Getenv sampleEnvBadPort "EMAIL_SMTP_PORT") = some c.SMTPPort) :=
  parseFlags_port sampleEnvBadPort sampleFlags rfl (by
    intro p hp
    simp only [requiredEnv, List.mem_cons, List.mem_singleton, List.not_mem_nil,
      or_false] at hp
    rcases hp with rfl | rfl | rfl | rfl | rfl <;> rfl)

/-- C10: a configuration returned by `parseFlags` has From, Password, To,
Subject, Body, SMTPHost and FromName non-empty, `validateConfig` accepts it,
and `main` then runs `sendEmail` on exactly that configuration. -/
theorem parseFlags_config_valid (env : Env) (flags : Flags) (c : Config)
    (h : parseFlags env flags = .ok c) :
    c.From ≠ "" ∧ c.Password ≠ "" ∧ c.To ≠ "" ∧ c.Subject ≠ "" ∧ c.Body ≠ "" ∧
    c.SMTPHost ≠ "" ∧ c.FromName ≠ "" ∧
    validateConfig c = none ∧
    ∀ t, main env flags t = sendEmail t c := by
  obtain ⟨-, h1, h2, h3, h4, -, -, hs, hb, hF, hN, hP, hT, hS, hB, hH⟩ := parseFlags_ok h
  have e1 : c.From ≠ "" := by rw [hF]; exact h1
  have e2 : c.Password ≠ "" := by rw [hP]; exact h2
  have e3 : c.To ≠ "" := by rw [hT]; exact h3
  have e4 : c.Subject ≠ "" := by rw [hS]; exact hs
  have e5 : c.Body ≠ "" := by rw [hB]; exact hb
  have e6 : c.SMTPHost ≠ "" := by rw [hH]; exact h4
  have e7 : c.FromName ≠ "" := by
    rw [hN]
    by_cases hn : "" = Getenv env "EMAIL_FROM_NAME"
    · simp [hn.symm, h1]
    · simp [hn, Ne.symm hn]
  have hv : validateConfig c = none := by simp [validateConfig, e1, e2, e3, e4, e5]
  refine ⟨e1, e2, e3, e4, e5, e6, e7, hv, ?_⟩
  intro t
  simp [main, h, hv]

/-- C10 at a concrete input: the configuration loaded from the sample
environment is accepted by the validator. -/
theorem parseFlags_config_valid_witness :
    sampleConfig.From ≠ "" ∧ sampleConfig.Password ≠ "" ∧ sampleConfig.To ≠ "" ∧
    sampleConfig.Subject ≠ "" ∧ sampleConfig.Body ≠ "" ∧
    sampleConfig.SMTPHost ≠ "" ∧ sampleConfig.FromName ≠ "" ∧
    validateConfig sampleConfig = none ∧
    ∀ t, main sampleEnv sampleFlags t = sendEmail t sampleConfig :=
  parseFlags_config_valid sampleEnv sampleFlags sampleConfig rfl

/-! ## The transmitter -/

/-- The fallible steps attempted by `sendEmail`. -/
theorem sendEmail_attempted (t : Transport) (c : Config) :
    (sendEmail t c).attempted = throughFirstFailure t protocol := by
  unfold sendEmail
  repeat' split
  all_goals simp_all [Run.attempted, throughFirstFailure, protocol, Fatalf, returnNormally,
    Event.step, filterMap_step_afterFailure]

/-- A run of `sendEmail` ends in `log.Fatalf` exactly when a step fails. -/
theorem sendEmail_fatal_iff (t : Transport) (c : Config) :
    (∃ f a, (sendEmail t c).ended = some (.fatal f a)) ↔ ∃ s, (t s).isSome = true := by
  unfold sendEmail
  repeat' split
  all_goals first
    | (rename_i e h
       simp only [Fatalf]
       exact ⟨fun _ => ⟨_, by rw [h]; rfl⟩, fun _ => ⟨_, _, rfl⟩⟩)
    | (simp only [returnNormally]
       constructor
       · rintro ⟨f, a, h⟩
         cases h
       · rintro ⟨s, hs⟩
         cases s <;> simp_all)

/-- The steps through the first failure are an initial segment. -/
theorem throughFirstFailure_initial (t : Transport) (l : List Step) :
    throughFirstFailure t l <+: l := by
  induction l with
  | nil => simp [throughFirstFailure]
  | cons s rest ih =>
    unfold throughFirstFailure
    split_ifs
    · exact ⟨rest, rfl⟩
    · exact (List.prefix_cons_inj s).2 ih

/-- C7: over a mock transport the fallible steps `sendEmail` attempts are the
initial segment of dial, client creation, AUTH, MAIL, RCPT, DATA, write,
close-writer, QUIT through the first failing step (all of them when none
fails), none is attempted twice, and the run ends in `log.Fatalf` exactly
when a step failed; after a rejected AUTH, MAIL, RCPT, DATA and write are not
attempted; when every step is accepted the function returns, the exit status
is 0 and nothing fatal is logged. -/
theorem sendEmail_stops_at_first_failure (t : Transport) (c : Config) :
    (sendEmail t c).attempted = throughFirstFailure t protocol ∧
    (sendEmail t c).attempted <+: protocol ∧
    (sendEmail t c).attempted.Nodup ∧
    ((∃ f a, (sendEmail t c).ended = some (.fatal f a)) ↔ ∃ s, (t s).isSome = true) ∧
    ((t .auth).isSome = true →
      Step.mail ∉ (sendEmail t c).attempted ∧ Step.rcpt ∉ (sendEmail t c).attempted ∧
      Step.data ∉ (sendEmail t c).attempted ∧ Step.write ∉ (sendEmail t c).attempted) ∧
    ((∀ s, t s = none) →
      (sendEmail t c).attempted = protocol ∧ (sendEmail t c).ended = none ∧
      (sendEmail t c).exitStatus = 0) := by
  have hini : (sendEmail t c).attempted <+: protocol := by
    rw [sendEmail_attempted]
    exact throughFirstFailure_initial t protocol
  refine ⟨sendEmail_attempted t c, hini, ?_, sendEmail_fatal_iff t c, ?_, ?_⟩
  · exact List.Nodup.sublist hini.sublist (by decide)
  · intro ha
    rw [sendEmail_attempted]
    simp only [throughFirstFailure, protocol, ha]
    split_ifs <;> simp
  · intro hall
    refine ⟨?_, ?_, ?_⟩
    · rw [sendEmail_attempted]
      simp [throughFirstFailure, protocol, hall]
    · simp [sendEmail, hall, returnNormally]
    · simp [Run.exitStatus, sendEmail, hall, returnNormally]

/-- The deferred `conn.Close` runs exactly when every step succeeds. -/
theorem connClose_mem_iff (t : Transport) (c : Config) :
    Event.connClose ∈ (sendEmail t c).trace ↔ ∀ s, t s = none := by
  unfold sendEmail
  repeat' split
  all_goals first
    | (rename_i e h
       simp only [Fatalf, afterFailure]
       constructor
       · intro hm
         split_ifs at hm <;> simp at hm
       · intro hall
         rw [hall] at h
         cases h)
    | (simp only [returnNormally]
       constructor
       · intro _ s
         cases s <;> assumption
       · intro _
         simp)

/-- Whether a close occurs after a failed call. -/
theorem any_afterFailure (trace : List Event) (s : Step) (f : Failure) :
    (afterFailure trace s f).any Event.releases =
      (trace.any Event.releases || closedByLibrary s f) := by
  unfold afterFailure
  split_ifs with h <;> simp [h, Event.releases]

/-- A run of `sendEmail` closes the connection when every step succeeds, and
otherwise exactly when the library closes it inside the first failing call. -/
theorem sendEmail_released (t : Transport) (c : Config) :
    (sendEmail t c).released =
      match firstFailure t protocol with
      | none => true
      | some (s, f) => closedByLibrary s f := by
  unfold sendEmail
  simp only [firstFailure, protocol]
  cases h1 : t .dial with
  | some f =>
    simp [Fatalf, Run.released, any_afterFailure, Event.releases,
      closedByLibrary]
  | none =>
    cases h2 : t .newClient with
    | some f =>
      simp [Fatalf, Run.released, any_afterFailure, Event.releases,
        closedByLibrary]
    | none =>
      cases h3 : t .auth with
      | some f =>
        simp [Fatalf, Run.released, any_afterFailure, Event.releases,
          closedByLibrary]
      | none =>
        cases h4 : t .mail with
        | some f =>
          simp [Fatalf, Run.released, any_afterFailure, Event.releases,
            closedByLibrary]
        | none =>
          cases h5 : t .rcpt with
          | some f =>
            simp [Fatalf, Run.released, any_afterFailure, Event.releases,
              closedByLibrary]
          | none =>
            cases h6 : t .data with
            | some f =>
              simp [Fatalf, Run.released, any_afterFailure, Event.releases,
                closedByLibrary]
            | none =>
              cases h7 : t .write with
              | some f =>
                simp [Fatalf, Run.released, any_afterFailure, Event.releases,
                  closedByLibrary]
              | none =>
                cases h8 : t .closeWriter with
                | some f =>
                  simp [Fatalf, Run.released, any_afterFailure, Event.releases,
                    closedByLibrary]
                | none =>
                  cases h9 : t .quit with
                  | some f =>
                    simp [Fatalf, Run.released, any_afterFailure, Event.releases,
                      closedByLibrary]
                  | none =>
                    simp [returnNormally, Run.released, Event.releases]

/-- C8: the connection is not released on every fatal path. With the dial,
the client creation and AUTH accepted and MAIL rejected, the run is dial,
client creation, AUTH, MAIL, then `log.Fatalf`: the deferred `conn.Close` and
`client.Close` do not run and nothing else closes the connection. The same
holds whenever the first failure is that of MAIL, RCPT, DATA, the write or the
close of the data writer. A rejected AUTH does leave the connection closed,
by `net/smtp` itself; in general the connection is closed exactly when every
step succeeds or the library closes it inside the first failing call, and the
deferred `conn.Close` runs only when every step succeeds. -/
theorem sendEmail_fatal_keeps_conn_open :
    rejectMail .dial = none ∧
    sendEmail rejectMail sampleConfig =
      ⟨[ Event.tlsDial "tcp" "smtp.x.com:465" "smtp.x.com",
         Event.newClient "smtp.x.com",
         Event.auth "" "a@x.com" "secret" "smtp.x.com",
         Event.mail "a@x.com" ],
       some (.fatal "Failed to set sender: %v" [.error "550 sender rejected"])⟩ ∧
    (sendEmail rejectMail sampleConfig).released = false ∧
    (∀ t c, t .dial = none → t .newClient = none → t .auth = none →
      (∃ s ∈ [Step.mail, Step.rcpt, Step.data, Step.write, Step.closeWriter],
        (t s).isSome = true) →
      (sendEmail t c).released = false) ∧
    (sendEmail rejectAuth sampleConfig).released = true ∧
    (∀ t c, (sendEmail t c).released =
      match firstFailure t protocol with
      | none => true
      | some (s, f) => closedByLibrary s f) ∧
    (∀ t c, Event.connClose ∈ (sendEmail t c).trace ↔ ∀ s, t s = none) := by
  refine ⟨rfl, rfl, rfl, ?_, rfl, sendEmail_released, connClose_mem_iff⟩
  intro t c h1 h2 h3 hex
  rw [sendEmail_released]
  simp only [firstFailure, protocol, h1, h2, h3]
  simp only [List.mem_cons, List.mem_singleton, List.not_mem_nil, or_false,
    exists_eq_or_imp, exists_eq_left] at hex
  cases h4 : t .mail with
  | some f => rfl
  | none =>
    cases h5 : t .rcpt with
    | some f => rfl
    | none =>
      cases h6 : t .data with
      | some f => rfl
      | none =>
        cases h7 : t .write with
        | some f => rfl
        | none =>
          cases h8 : t .closeWriter with
          | some f => rfl
          | none => simp [h4, h5, h6, h7, h8] at hex

/-- C1: no blank line separates the header block from the body. For Subject
"Test", Body "Hello", From and FromName "a@x.com", To "b@y.com" the message
is the five header lines followed at once by the body line, it does not end
with "charset=UTF-8", CR LF, CR LF, "Hello", CR LF, and for every
configuration the Content-Type line is followed by the body directly. -/
theorem messageStr_no_blank_line :
    messageStr sampleConfig =
      "From: a@x.com<a@x.com>\r\nTo: b@y.com\r\nSubject: Test\r\nMIME-Version: 1.0\r\nContent-Type: text/plain; charset=UTF-8\r\nHello\r\n" ∧
    ¬ ("charset=UTF-8\r\n\r\nHello\r\n".toList <:+ (messageStr sampleConfig).toList) ∧
    (∀ c : Config, ∃ front, messageStr c =
      front ++ "Content-Type: text/plain; charset=UTF-8" ++ "\r\n" ++ c.Body ++ "\r\n") := by
  refine ⟨rfl, by decide, fun c => ⟨"From: " ++ c.FromName ++ "<" ++ c.From ++ ">" ++ "\r\n" ++
      ("To: " ++ c.To) ++ "\r\n" ++ ("Subject: " ++ c.Subject) ++ "\r\n" ++
      "MIME-Version: 1.0" ++ "\r\n", ?_⟩⟩
  have hflat : messageStr c =
      ("From: " ++ c.FromName ++ "<" ++ c.From ++ ">") ++ "\r\n" ++
      ("To: " ++ c.To) ++ "\r\n" ++
      ("Subject: " ++ c.Subject) ++ "\r\n" ++
      "MIME-Version: 1.0" ++ "\r\n" ++
      "Content-Type: text/plain; charset=UTF-8" ++ "\r\n" ++ "" ++ c.Body ++ "\r\n" := rfl
  rw [hflat, String.append_empty]

end Mailsender
